import Mathlib

/-!
Verification of the speedster root operation and the PyTorch backend
inference learner of the nebullvm repository, as a shallow embedding.

Sources embedded:
* apps/accelerate/speedster/speedster/root_op.py (SpeedsterRootOp)
* nebullvm/operations/inference_learners/pytorch.py
  (PytorchBackendInferenceLearner)

Python floats are modelled as rationals, Python exceptions as an
explicit error channel (Except), and the parts of `execute` that call
external operations (model fetching, conversion, per-backend
optimization, benchmarking) are abstracted into an environment record
whose fields hold those operations' results.
-/

namespace Nebullvm

/-- A Python exception, tagged by its class. `dict.get` never raises, so
no key-lookup constructor is needed for the metric map. -/
inductive PyExc where
  | valueError (msg : String)
  | runtimeError (msg : String)
  | picklingError (msg : String)
deriving DecidableEq, Repr

instance {ε α : Type _} [DecidableEq ε] [DecidableEq α] :
    DecidableEq (Except ε α) := fun a b =>
  match a, b with
  | Except.ok x, Except.ok y =>
      if h : x = y then Decidable.isTrue (by rw [h])
      else Decidable.isFalse (fun hh => h (Except.ok.inj hh))
  | Except.ok _, Except.error _ =>
      Decidable.isFalse (fun hh => Except.noConfusion hh)
  | Except.error _, Except.ok _ =>
      Decidable.isFalse (fun hh => Except.noConfusion hh)
  | Except.error x, Except.error y =>
      if h : x = y then Decidable.isTrue (by rw [h])
      else Decidable.isFalse (fun hh => h (Except.error.inj hh))

/-- `isinstance(e, RuntimeError)`: the class tested by the `except
RuntimeError` clause in `PytorchBackendInferenceLearner.get_size`. -/
def PyExc.isRuntimeError : PyExc → Bool
  | .runtimeError _ => true
  | _ => false

/-- The nebullvm `Device` enum (tools.base), restricted to the two
values used by the embedded code. -/
inductive Device where
  | cpu
  | gpu
deriving DecidableEq, Repr

/-- The two metric functions reachable from `root_op.py`.
`computeRelativeDifference` is the function the log line
`metric_name = "compute_relative_difference"` refers to. -/
inductive MetricFn where
  | computeRelativeDifference
  | computeAccuracyDrop
deriving DecidableEq, Repr

/-- Modelled from the spec: `QUANTIZATION_METRIC_MAP`
(nebullvm.operations.measures.utils, not under src/) is the "fixed
name→function mapping" for string metric names; the spec names
"numeric_precision" as the default numeric-precision entry, which
`root_op.py` pairs with `compute_relative_difference` in its log
message. -/
def QUANTIZATION_METRIC_MAP : List (String × MetricFn) :=
  [("accuracy", MetricFn.computeAccuracyDrop),
   ("numeric_precision", MetricFn.computeRelativeDifference)]

/-- The `metric` argument of `SpeedsterRootOp.execute`: `None`, a
string name, or a metric callable. -/
inductive MetricArg where
  | noMetric
  | str (s : String)
  | fn (f : MetricFn)
deriving DecidableEq, Repr

/-- An inference learner produced by a backend, abstracted to an
identifier: the selection logic in `execute` never looks inside it. -/
structure BaseLearner where
  id : Nat
deriving DecidableEq, Repr

/-- One entry of the `optimized_models` list of
`SpeedsterRootOp.execute`: a tuple `(inference_learner, latency,
metric_drop)` where the learner slot may be `None`. -/
structure Candidate where
  model : Option BaseLearner
  latency : ℚ
  metricDrop : ℚ
deriving DecidableEq, Repr

/-- The optimal model stored by `execute`: either the selected learner
itself or, for HuggingFace inputs, that learner wrapped in a
`HuggingFaceInferenceLearner`. -/
inductive OptimalModel where
  | plain (m : BaseLearner)
  | hf (m : BaseLearner)
deriving DecidableEq, Repr

/-- The mutable state of `SpeedsterRootOp` relevant to its result:
`self.optimal_model`. -/
structure RootOpState where
  optimalModel : Option OptimalModel
deriving DecidableEq, Repr

/-- State after `SpeedsterRootOp.__init__`: `self.optimal_model = None`. -/
def initState : RootOpState := { optimalModel := none }

/-- `SpeedsterRootOp.get_result`: returns `self.optimal_model`. -/
def getResult (st : RootOpState) : Option OptimalModel :=
  st.optimalModel

/-- Warnings `execute` can emit on the paths embedded here. -/
inductive Warning where
  | hfDynamicShape
  | noOptimizedModel
deriving DecidableEq, Repr

/-- Lines 190-195 of `root_op.py`:

    if metric_drop_ths is not None and metric_drop_ths <= 0:
        metric_drop_ths = None
    elif metric_drop_ths is not None and metric is None:
        metric = "numeric_precision"
    if isinstance(metric, str):
        metric = QUANTIZATION_METRIC_MAP.get(metric)

returning the pair (effective threshold, effective metric) passed to
the downstream optimizers. `dict.get` with a single argument is
`List.lookup`: it yields `none` on a missing key, it does not raise. -/
def resolveThsMetric (metricDropThs : Option ℚ) (metric : MetricArg) :
    Option ℚ × Option MetricFn :=
  let step : Option ℚ × MetricArg :=
    match metricDropThs, metric with
    | some v, m =>
        if v ≤ 0 then (none, m)
        else
          match m with
          | MetricArg.noMetric => (some v, MetricArg.str "numeric_precision")
          | m' => (some v, m')
    | none, m => (none, m)
  let finalMetric : Option MetricFn :=
    match step.2 with
    | MetricArg.noMetric => none
    | MetricArg.str s => QUANTIZATION_METRIC_MAP.lookup s
    | MetricArg.fn f => some f
  (step.1, finalMetric)

/-- Ordering used by `optimized_models.sort(key=lambda x: x[1])`. -/
def candLE (a b : Candidate) : Prop := a.latency ≤ b.latency

instance : DecidableRel candLE := fun a b =>
  inferInstanceAs (Decidable (a.latency ≤ b.latency))

instance : IsTotal Candidate candLE :=
  ⟨fun a b => le_total a.latency b.latency⟩

instance : IsTrans Candidate candLE :=
  ⟨fun _ _ _ hab hbc => le_trans hab hbc⟩

/-- `optimized_models.sort(key=lambda x: x[1], reverse=False)`: a
stable ascending sort by latency (Python's list.sort is stable;
insertion sort is the stable sort of Mathlib). -/
def sortCandidates (l : List Candidate) : List Candidate :=
  List.insertionSort candLE l

/-- Lines 263-276 of `root_op.py`: sort the candidates, then the first
entry is optimal when the list is non-empty and its learner slot is
not `None`; otherwise no candidate is selected (warning path). -/
def selectOptimal (l : List Candidate) : Option (Candidate × BaseLearner) :=
  match sortCandidates l with
  | [] => none
  | c :: _ =>
      match c.model with
      | none => none
      | some m => some (c, m)

/-- Line 317-329 of `root_op.py`: the selected learner is wrapped in a
`HuggingFaceInferenceLearner` when the input data was HuggingFace
data, and stored as is otherwise. -/
def wrapOptimal (needsConversionToHf : Bool) (m : BaseLearner) : OptimalModel :=
  if needsConversionToHf then OptimalModel.hf m else OptimalModel.plain m

/-- Arguments of `SpeedsterRootOp.execute` that the embedded paths
read: the drop threshold, the metric argument and whether
`dynamic_info` was provided. -/
structure ExecArgs where
  metricDropThs : Option ℚ
  metric : MetricArg
  dynamicInfoProvided : Bool
deriving DecidableEq, Repr

/-- Results of the external operations `execute` calls, abstracted:
whether the fetch operations produced a (truthy) model and data, the
shape checks on the data, and the full list of candidates produced by
the conversion + per-backend optimization loop (lines 240-261). -/
structure ExecEnv where
  modelAvailable : Bool
  dataAvailable : Bool
  dataIsDataloader : Bool
  dataloaderConvertible : Bool
  dataIsHuggingface : Bool
  dataIsManager : Bool
  dataFormatOk : Bool
  candidates : List Candidate
deriving DecidableEq, Repr

/-- Warning emitted at lines 158-167: HuggingFace data without
`dynamic_info`. -/
def hfWarnings (env : ExecEnv) (args : ExecArgs) : List Warning :=
  if env.dataIsHuggingface && !args.dynamicInfoProvided then
    [Warning.hfDynamicShape]
  else []

/-- Observable outcome of a successful `execute` run: the final
operation state, the warnings emitted, the selected candidate (entry
`optimized_models[0]` when one is chosen), and the effective threshold
and metric passed downstream to the optimizers. -/
structure ExecOutcome where
  state : RootOpState
  warnings : List Warning
  selected : Option Candidate
  downstreamThs : Option ℚ
  downstreamMetric : Option MetricFn
deriving DecidableEq, Repr

/-- `SpeedsterRootOp.execute` (root_op.py lines 88-329). The guard at
line 123 skips the whole optimization block when the fetched model or
data is falsy. Inside the block: the dataloader-conversion `ValueError`
(lines 127-143), the HuggingFace dynamic-shape warning (158-167), the
data-format `ValueError` (169-186), the threshold/metric resolution
(190-195), and the sort-and-select step (263-329). The conversion and
optimization loop is abstracted by `env.candidates`. -/
def executeModel (env : ExecEnv) (args : ExecArgs) (st : RootOpState) :
    Except PyExc ExecOutcome :=
  if env.modelAvailable && env.dataAvailable then
    if env.dataIsDataloader && !env.dataloaderConvertible then
      Except.error (PyExc.valueError "The provided dataloader does not match the expected format.")
    else if !env.dataIsManager && !env.dataFormatOk then
      Except.error (PyExc.valueError "The provided data does not match the expected format.")
    else
      match selectOptimal env.candidates with
      | none =>
          Except.ok
            { state := st
              warnings := hfWarnings env args ++ [Warning.noOptimizedModel]
              selected := none
              downstreamThs := (resolveThsMetric args.metricDropThs args.metric).1
              downstreamMetric := (resolveThsMetric args.metricDropThs args.metric).2 }
      | some (c, m) =>
          Except.ok
            { state :=
                { st with
                  optimalModel := some (wrapOptimal env.dataIsHuggingface m) }
              warnings := hfWarnings env args
              selected := some c
              downstreamThs := (resolveThsMetric args.metricDropThs args.metric).1
              downstreamMetric := (resolveThsMetric args.metricDropThs args.metric).2 }
  else
    Except.ok
      { state := st
        warnings := []
        selected := none
        downstreamThs := none
        downstreamMetric := none }

/-! ## PytorchBackendInferenceLearner (pytorch.py) -/

/-- A torch device, as carried by a tensor. -/
inductive TorchDevice where
  | cpu
  | gpu
deriving DecidableEq, Repr

/-- A torch tensor, abstracted to its device and an opaque payload. -/
structure Tensor where
  device : TorchDevice
  val : Nat
deriving DecidableEq, Repr

/-- `tensor.to(device)`. -/
def Tensor.to (t : Tensor) (d : TorchDevice) : Tensor :=
  { t with device := d }

/-- `tensor.cuda()`. -/
def Tensor.cuda (t : Tensor) : Tensor :=
  t.to TorchDevice.gpu

/-- Result of calling a torch model: either a single tensor or a tuple
of tensors (`run` tests `isinstance(res, tuple)`). -/
inductive TorchOut where
  | single (t : Tensor)
  | tup (ts : List Tensor)

/-- The optional `core_model` attribute tested by `get_size`,
abstracted to its `pickle.dumps` outcome. -/
structure CoreModel where
  pickleDumps : Except PyExc Nat

/-- A `torch.jit.ScriptModule`: its input/output behaviour `fn`, the
flags touched by `eval()` and `cuda()`, the optional `core_model`
attribute, the outcome of `pickle.dumps(model, -1)` (byte count or
exception), and the on-disk byte count `torch.jit.save` produces. -/
structure ScriptModule where
  fn : List Tensor → TorchOut
  training : Bool
  onCuda : Bool
  coreModel : Option CoreModel
  pickleDumps : Except PyExc Nat
  savedSize : Nat

/-- `module.eval()`: clears the training flag and returns the module. -/
def ScriptModule.evalMode (m : ScriptModule) : ScriptModule :=
  { m with training := false }

/-- `module.cuda()`: moves the module to the GPU and returns it. -/
def ScriptModule.cudaMode (m : ScriptModule) : ScriptModule :=
  { m with onCuda := true }

/-- `ModelParams` (tools.base), abstracted to an opaque payload. -/
structure ModelParams where
  batchSize : Nat
deriving DecidableEq, Repr

/-- `MultiStageTransformation`, abstracted to an opaque payload;
`to_dict`/`from_dict` round-trip it unchanged. -/
structure MultiStageTransformation where
  tag : Nat
deriving DecidableEq, Repr

/-- `PytorchBackendInferenceLearner`: the scripted model plus the base
learner fields its metadata records. -/
structure PytorchBackendInferenceLearner where
  model : ScriptModule
  device : Device
  networkParameters : ModelParams
  inputTfms : Option MultiStageTransformation

/-- `PytorchBackendInferenceLearner.__init__`: stores
`torch_model.eval()`, moved to CUDA when the device is the GPU, and
the device. -/
def mkLearner (torchModel : ScriptModule) (networkParameters : ModelParams)
    (inputTfms : Option MultiStageTransformation) (device : Device) :
    PytorchBackendInferenceLearner :=
  let m := torchModel.evalMode
  let m := if device = Device.gpu then m.cudaMode else m
  { model := m
    device := device
    networkParameters := networkParameters
    inputTfms := inputTfms }

/-- The input tensors actually fed to the model by `run`: moved to CUDA
when the learner's device is the GPU. -/
def movedInputs (l : PytorchBackendInferenceLearner) (inputs : List Tensor) :
    List Tensor :=
  if l.device = Device.gpu then inputs.map Tensor.cuda else inputs

/-- `PytorchBackendInferenceLearner.run` (pytorch.py lines 33-42):
records the device of the first input (an `IndexError`, modelled as
`none`, on an empty argument tuple), moves the inputs to CUDA on GPU,
calls the model, wraps a non-tuple result into a one-element tuple,
and moves every output back to the recorded device. -/
def PytorchBackendInferenceLearner.run (l : PytorchBackendInferenceLearner)
    (inputTensors : List Tensor) : Option (List Tensor) :=
  match inputTensors with
  | [] => none
  | t0 :: rest =>
      let device := t0.device
      let fed := movedInputs l (t0 :: rest)
      some
        (match l.model.fn fed with
         | TorchOut.single res => [res.to device]
         | TorchOut.tup res => res.map (fun out => out.to device))

/-- `LearnerMetadata` as written by `LearnerMetadata.from_model` and
read back by `load`: the base learner fields. Modelled from the spec:
`LearnerMetadata` (inference_learners/base.py, not under src/) is the
"metadata file" that saved models write and that "load reconstructs
the wrapper from". -/
structure LearnerMetadata where
  networkParameters : ModelParams
  inputTfms : Option MultiStageTransformation
  device : Device
deriving DecidableEq, Repr

/-- `LearnerMetadata.from_model(self)`: captures the learner's base
fields. -/
def fromModel (l : PytorchBackendInferenceLearner) : LearnerMetadata :=
  { networkParameters := l.networkParameters
    inputTfms := l.inputTfms
    device := l.device }

/-- Byte count of the serialized metadata file on disk, modelled as the
length of a textual rendering of the metadata. -/
def LearnerMetadata.byteSize (md : LearnerMetadata) : Nat :=
  (reprStr md).length

/-- Contents of one save directory: the metadata file and the
`model_scripted.pt` file, each possibly absent. -/
structure SavedDir where
  metadataFile : Option LearnerMetadata
  modelFile : Option ScriptModule

/-- A directory with no files, as `TemporaryDirectory` provides. -/
def emptySavedDir : SavedDir :=
  { metadataFile := none, modelFile := none }

/-- `PytorchBackendInferenceLearner.save` (pytorch.py lines 60-66):
`metadata.save(path)` writes the metadata file and `torch.jit.save`
writes `model_scripted.pt`, both into the given directory. -/
def saveLearner (l : PytorchBackendInferenceLearner) (d : SavedDir) : SavedDir :=
  { d with
    metadataFile := some (fromModel l)
    modelFile := some l.model }

/-- `PytorchBackendInferenceLearner.load` (pytorch.py lines 68-80):
reads `model_scripted.pt` and the metadata from the directory (a
missing file raises, modelled as `none`) and rebuilds the learner via
the constructor from the metadata fields. -/
def loadLearner (d : SavedDir) : Option PytorchBackendInferenceLearner :=
  match d.modelFile with
  | none => none
  | some m =>
      match d.metadataFile with
      | none => none
      | some md => some (mkLearner m md.networkParameters md.inputTfms md.device)

/-- Total size in bytes of the files present in a directory, as summed
by the `os.path.getsize` loop in `get_size`. -/
def SavedDir.totalSize (d : SavedDir) : Nat :=
  (match d.metadataFile with
   | some md => md.byteSize
   | none => 0) +
  (match d.modelFile with
   | some m => m.savedSize
   | none => 0)

/-- The object `get_size` pickles: `self.model.core_model` when the
attribute exists, else `self.model` itself. -/
def pickleTarget (l : PytorchBackendInferenceLearner) : Except PyExc Nat :=
  match l.model.coreModel with
  | some cm => cm.pickleDumps
  | none => l.model.pickleDumps

/-- `PytorchBackendInferenceLearner.get_size` (pytorch.py lines 44-58):
returns the pickled byte count; on a `RuntimeError` it saves the model
into a fresh temporary directory and returns the summed on-disk file
sizes; any other exception propagates (`except RuntimeError` catches
only that class). -/
def get_size (l : PytorchBackendInferenceLearner) : Except PyExc Nat :=
  match pickleTarget l with
  | Except.ok n => Except.ok n
  | Except.error e =>
      if e.isRuntimeError then
        Except.ok (SavedDir.totalSize (saveLearner l emptySavedDir))
      else Except.error e

/-- First-submitted candidate of minimal latency among `a :: l`: `a` on
ties, mirroring the stability of the sort. -/
def firstMinCand (a : Candidate) : List Candidate → Candidate
  | [] => a
  | b :: t =>
      if a.latency ≤ (firstMinCand b t).latency then a else firstMinCand b t

/-- A learner whose model fails to pickle with a non-`RuntimeError`
exception (as `pickle.dumps` raises `pickle.PicklingError`, which is
not a `RuntimeError` subclass, on unpicklable objects). -/
def nonRuntimeFailLearner : PytorchBackendInferenceLearner :=
  { model :=
      { fn := fun _ => TorchOut.tup []
        training := false
        onCuda := false
        coreModel := none
        pickleDumps := Except.error (PyExc.picklingError "unpicklable scripted module")
        savedSize := 4096 }
    device := Device.cpu
    networkParameters := { batchSize := 1 }
    inputTfms := none }

/-- A learner whose model fails to pickle with a `RuntimeError`. -/
def runtimeFailLearner : PytorchBackendInferenceLearner :=
  { model :=
      { fn := fun _ => TorchOut.tup []
        training := false
        onCuda := false
        coreModel := none
        pickleDumps := Except.error (PyExc.runtimeError "pickle failure")
        savedSize := 4096 }
    device := Device.cpu
    networkParameters := { batchSize := 1 }
    inputTfms := none }

/-- A learner on the CPU whose model returns a single (non-tuple)
tensor that lives on the GPU. -/
def singleOutputLearner : PytorchBackendInferenceLearner :=
  { model :=
      { fn := fun _ => TorchOut.single { device := TorchDevice.gpu, val := 7 }
        training := false
        onCuda := false
        coreModel := none
        pickleDumps := Except.ok 100
        savedSize := 100 }
    device := Device.cpu
    networkParameters := { batchSize := 1 }
    inputTfms := none }

/-! ## Helper lemmas about the selection step -/

theorem selectOptimal_eq_some {l : List Candidate} {c : Candidate} {m : BaseLearner}
    (h : selectOptimal l = some (c, m)) :
    ∃ t, sortCandidates l = c :: t ∧ c.model = some m := by
  unfold selectOptimal at h
  split at h
  · exact absurd h (by simp)
  next c' t hs =>
    split at h
    · exact absurd h (by simp)
    next m' hm =>
      simp only [Option.some.injEq, Prod.mk.injEq] at h
      obtain ⟨hc, hm2⟩ := h
      subst hc
      subst hm2
      exact ⟨t, hs, hm⟩

theorem sortCandidates_head_min {l : List Candidate} {c : Candidate}
    {t : List Candidate} (h : sortCandidates l = c :: t) :
    c ∈ l ∧ ∀ d ∈ l, c.latency ≤ d.latency := by
  have hperm : List.Perm (sortCandidates l) l := List.perm_insertionSort candLE l
  have hsorted : List.Sorted candLE (sortCandidates l) :=
    List.sorted_insertionSort candLE l
  rw [h] at hperm hsorted
  refine ⟨hperm.subset (List.mem_cons_self c t), ?_⟩
  intro d hd
  rcases List.mem_cons.mp (hperm.symm.subset hd) with h1 | h2
  · subst h1
    exact le_refl _
  · exact (List.pairwise_cons.mp hsorted).1 d h2

theorem sortCandidates_cons_head :
    ∀ (l : List Candidate) (a : Candidate),
      (sortCandidates (a :: l)).head? = some (firstMinCand a l) := by
  intro l
  induction l with
  | nil => intro a; rfl
  | cons b t ih =>
      intro a
      have hb := ih b
      cases hs : sortCandidates (b :: t) with
      | nil => rw [hs] at hb; exact absurd hb (by simp)
      | cons m s =>
          rw [hs] at hb
          have hm : m = firstMinCand b t := by simpa using hb
          have hstep : sortCandidates (a :: b :: t) =
              List.orderedInsert candLE a (sortCandidates (b :: t)) := rfl
          rw [hstep, hs]
          by_cases hle : a.latency ≤ m.latency
          · have : candLE a m := hle
            rw [List.orderedInsert_of_le candLE s this]
            simp [firstMinCand, ← hm, hle]
          · have hnot : ¬ candLE a m := hle
            simp only [List.orderedInsert, if_neg hnot]
            simp [firstMinCand, ← hm, hle]

theorem find?_firstMinCand :
    ∀ (l : List Candidate) (a : Candidate),
      (a :: l).find? (fun x => decide (x.latency = (firstMinCand a l).latency)) =
        some (firstMinCand a l) := by
  intro l
  induction l with
  | nil =>
      intro a
      simp [firstMinCand]
  | cons b t ih =>
      intro a
      by_cases hle : a.latency ≤ (firstMinCand b t).latency
      · simp [firstMinCand, hle]
      · have hlt : (firstMinCand b t).latency < a.latency := lt_of_not_le hle
        have hne : ¬ a.latency = (firstMinCand b t).latency := by
          intro heq
          rw [heq] at hlt
          exact lt_irrefl _ hlt
        simp only [firstMinCand, if_neg hle]
        rw [List.find?_cons_of_neg _ (by simpa using hne)]
        exact ih b

theorem executeModel_ok_selected {env : ExecEnv} {args : ExecArgs}
    {st : RootOpState} {out : ExecOutcome} {c : Candidate}
    (hrun : executeModel env args st = Except.ok out)
    (hsel : out.selected = some c) :
    ∃ m, selectOptimal env.candidates = some (c, m) := by
  unfold executeModel at hrun
  split at hrun
  · split at hrun
    · exact absurd hrun (by simp)
    · split at hrun
      · exact absurd hrun (by simp)
      · split at hrun
        next hnone =>
          rw [Except.ok.injEq] at hrun
          subst hrun
          exact absurd hsel (by simp)
        next c' m hsome =>
          rw [Except.ok.injEq] at hrun
          subst hrun
          simp only [Option.some.injEq] at hsel
          subst hsel
          exact ⟨m, hsome⟩
  · rw [Except.ok.injEq] at hrun
    subst hrun
    exact absurd hsel (by simp)

/-! ## Claim theorems -/

/-- C1: for every run of `execute` that produces a non-empty candidate
list whose best entry is non-null (that is, a run that selects a
candidate), the selected candidate belongs to the produced list and its
latency is the minimum latency over all produced candidates: the list
is sorted ascending by latency and the first entry is chosen. -/
theorem execute_selected_min_latency (env : ExecEnv) (args : ExecArgs)
    (st : RootOpState) (out : ExecOutcome) (c : Candidate)
    (hrun : executeModel env args st = Except.ok out)
    (hsel : out.selected = some c) :
    c ∈ env.candidates ∧ (∀ d ∈ env.candidates, c.latency ≤ d.latency) ∧
      (env.candidates.map Candidate.latency).minimum = (c.latency : WithTop ℚ) := by
  obtain ⟨m, hopt⟩ := executeModel_ok_selected hrun hsel
  obtain ⟨t, hsort, hmodel⟩ := selectOptimal_eq_some hopt
  obtain ⟨hmem, hmin⟩ := sortCandidates_head_min hsort
  refine ⟨hmem, hmin, ?_⟩
  rw [List.minimum_eq_coe_iff]
  constructor
  · exact List.mem_map.mpr ⟨c, hmem, rfl⟩
  · intro b hb
    obtain ⟨d, hd, rfl⟩ := List.mem_map.mp hb
    exact hmin d hd

/-- C1 witness: on the concrete candidate list with latencies 3 and 2,
the run selects the latency-2 candidate, the minimum. -/
theorem execute_selected_min_latency_witness :
    (List.map Candidate.latency
        [{ model := some { id := 1 }, latency := 3, metricDrop := 0 },
         { model := some { id := 2 }, latency := 2, metricDrop := 0 }]).minimum =
      ((2 : ℚ) : WithTop ℚ) :=
  (execute_selected_min_latency
    { modelAvailable := true, dataAvailable := true, dataIsDataloader := false
      dataloaderConvertible := true, dataIsHuggingface := false
      dataIsManager := true, dataFormatOk := true
      candidates :=
        [{ model := some { id := 1 }, latency := 3, metricDrop := 0 },
         { model := some { id := 2 }, latency := 2, metricDrop := 0 }] }
    { metricDropThs := none, metric := MetricArg.noMetric, dynamicInfoProvided := true }
    initState
    { state := { optimalModel := some (OptimalModel.plain { id := 2 }) }
      warnings := []
      selected := some { model := some { id := 2 }, latency := 2, metricDrop := 0 }
      downstreamThs := none
      downstreamMetric := none }
    { model := some { id := 2 }, latency := 2, metricDrop := 0 }
    (by decide) (by decide)).2.2

/-- C8: the sort is stable, so when the candidate list contains two or
more candidates with identical latency, the selected candidate is the
first-submitted among the minimum-latency candidates: it is the first
element of the submission-ordered list whose latency equals the
selected (minimum) latency. -/
theorem execute_tie_selects_first_submitted (env : ExecEnv) (args : ExecArgs)
    (st : RootOpState) (out : ExecOutcome) (c : Candidate)
    (hrun : executeModel env args st = Except.ok out)
    (hsel : out.selected = some c)
    (htie : ∃ i j, ∃ (hi : i < env.candidates.length)
        (hj : j < env.candidates.length), i ≠ j ∧
        (env.candidates.get ⟨i, hi⟩).latency = (env.candidates.get ⟨j, hj⟩).latency) :
    env.candidates.find? (fun x => decide (x.latency = c.latency)) = some c ∧
      ∀ d ∈ env.candidates, c.latency ≤ d.latency := by
  obtain ⟨m, hopt⟩ := executeModel_ok_selected hrun hsel
  obtain ⟨t, hsort, hmodel⟩ := selectOptimal_eq_some hopt
  obtain ⟨hmem, hmin⟩ := sortCandidates_head_min hsort
  refine ⟨?_, hmin⟩
  cases hcand : env.candidates with
  | nil =>
      rw [hcand] at hsort
      exact absurd hsort (by simp [sortCandidates])
  | cons a l =>
      have hhead : (sortCandidates (a :: l)).head? = some (firstMinCand a l) :=
        sortCandidates_cons_head l a
      rw [hcand] at hsort
      rw [hsort] at hhead
      have hc : c = firstMinCand a l := by simpa using hhead
      rw [hc]
      exact find?_firstMinCand l a

/-- C8 witness: with two latency-2 candidates submitted in order and a
latency-5 candidate, the one submitted first is found first. -/
theorem execute_tie_selects_first_submitted_witness :
    ([{ model := some { id := 1 }, latency := 2, metricDrop := 0 },
      { model := some { id := 2 }, latency := 2, metricDrop := 0 },
      { model := some { id := 3 }, latency := 5, metricDrop := 0 }] :
        List Candidate).find?
        (fun x => decide (x.latency = (2 : ℚ))) =
      some { model := some { id := 1 }, latency := 2, metricDrop := 0 } :=
  (execute_tie_selects_first_submitted
    { modelAvailable := true, dataAvailable := true, dataIsDataloader := false
      dataloaderConvertible := true, dataIsHuggingface := false
      dataIsManager := true, dataFormatOk := true
      candidates :=
        [{ model := some { id := 1 }, latency := 2, metricDrop := 0 },
         { model := some { id := 2 }, latency := 2, metricDrop := 0 },
         { model := some { id := 3 }, latency := 5, metricDrop := 0 }] }
    { metricDropThs := none, metric := MetricArg.noMetric, dynamicInfoProvided := true }
    initState
    { state := { optimalModel := some (OptimalModel.plain { id := 1 }) }
      warnings := []
      selected := some { model := some { id := 1 }, latency := 2, metricDrop := 0 }
      downstreamThs := none
      downstreamMetric := none }
    { model := some { id := 1 }, latency := 2, metricDrop := 0 }
    (by decide) (by decide)
    ⟨0, 1, by decide, by decide, by decide, by decide⟩).1

/-- C2: when the assembled candidate list is empty or its
lowest-latency entry has a null learner, `execute` completes without an
exception, emits the no-optimized-model warning, and leaves
`optimal_model` unset, so `get_result` returns `None`. -/
theorem execute_no_candidate_warns (env : ExecEnv) (args : ExecArgs)
    (hm : env.modelAvailable = true) (hd : env.dataAvailable = true)
    (hdl : env.dataIsDataloader = false ∨ env.dataloaderConvertible = true)
    (hfmt : env.dataIsManager = true ∨ env.dataFormatOk = true)
    (hempty : env.candidates = [] ∨
      ∃ c t, sortCandidates env.candidates = c :: t ∧ c.model = none) :
    executeModel env args initState =
      Except.ok
        { state := initState
          warnings := hfWarnings env args ++ [Warning.noOptimizedModel]
          selected := none
          downstreamThs := (resolveThsMetric args.metricDropThs args.metric).1
          downstreamMetric := (resolveThsMetric args.metricDropThs args.metric).2 } ∧
      getResult initState = none := by
  have hsel : selectOptimal env.candidates = none := by
    rcases hempty with h | ⟨c, t, hs, hm0⟩
    · unfold selectOptimal
      rw [h]
      rfl
    · unfold selectOptimal
      rw [hs]
      simp [hm0]
  have h1 : (env.dataIsDataloader && !env.dataloaderConvertible) = false := by
    rcases hdl with h | h <;> simp [h]
  have h2 : (!env.dataIsManager && !env.dataFormatOk) = false := by
    rcases hfmt with h | h <;> simp [h]
  refine ⟨?_, rfl⟩
  unfold executeModel
  rw [hm, hd, h1, h2, hsel]
  rfl

/-- C2 witness: a run over an empty candidate list completes with the
warning and no optimal model. -/
theorem execute_no_candidate_warns_witness :
    executeModel
        { modelAvailable := true, dataAvailable := true, dataIsDataloader := false
          dataloaderConvertible := true, dataIsHuggingface := false
          dataIsManager := true, dataFormatOk := true, candidates := [] }
        { metricDropThs := none, metric := MetricArg.noMetric, dynamicInfoProvided := true }
        initState =
      Except.ok
        { state := initState
          warnings :=
            hfWarnings
              { modelAvailable := true, dataAvailable := true, dataIsDataloader := false
                dataloaderConvertible := true, dataIsHuggingface := false
                dataIsManager := true, dataFormatOk := true, candidates := [] }
              { metricDropThs := none, metric := MetricArg.noMetric,
                dynamicInfoProvided := true } ++ [Warning.noOptimizedModel]
          selected := none
          downstreamThs :=
            (resolveThsMetric none MetricArg.noMetric).1
          downstreamMetric :=
            (resolveThsMetric none MetricArg.noMetric).2 } ∧
      getResult initState = none :=
  execute_no_candidate_warns
    { modelAvailable := true, dataAvailable := true, dataIsDataloader := false
      dataloaderConvertible := true, dataIsHuggingface := false
      dataIsManager := true, dataFormatOk := true, candidates := [] }
    { metricDropThs := none, metric := MetricArg.noMetric, dynamicInfoProvided := true }
    rfl rfl (Or.inl rfl) (Or.inl rfl) (Or.inl rfl)

/-- C3: a non-`None` drop threshold that is `≤ 0` is disabled: the
threshold passed downstream to the optimizers is `None`. -/
theorem execute_nonpositive_ths_disabled (env : ExecEnv) (args : ExecArgs)
    (st : RootOpState) (out : ExecOutcome) (v : ℚ)
    (hths : args.metricDropThs = some v) (hv : v ≤ 0)
    (hrun : executeModel env args st = Except.ok out) :
    out.downstreamThs = none := by
  have hr : (resolveThsMetric args.metricDropThs args.metric).1 = none := by
    rw [hths]
    unfold resolveThsMetric
    simp [hv]
  unfold executeModel at hrun
  split at hrun
  · split at hrun
    · exact absurd hrun (by simp)
    · split at hrun
      · exact absurd hrun (by simp)
      · split at hrun <;>
          (rw [Except.ok.injEq] at hrun; subst hrun; exact hr)
  · rw [Except.ok.injEq] at hrun
    subst hrun
    rfl

/-- C3 witness: a threshold of `-1` is passed downstream as `None`. -/
theorem execute_nonpositive_ths_disabled_witness :
    (ExecOutcome.mk initState [Warning.noOptimizedModel] none none none).downstreamThs
      = none :=
  execute_nonpositive_ths_disabled
    { modelAvailable := true, dataAvailable := true, dataIsDataloader := false
      dataloaderConvertible := true, dataIsHuggingface := false
      dataIsManager := true, dataFormatOk := true, candidates := [] }
    { metricDropThs := some (-1 : ℚ), metric := MetricArg.noMetric,
      dynamicInfoProvided := true }
    initState
    (ExecOutcome.mk initState [Warning.noOptimizedModel] none none none)
    (-1 : ℚ) rfl (by norm_num) (by decide)

/-- C10: when the fetched model or the fetched data is falsy, the whole
optimization block is skipped: `execute` raises nothing, emits no
warning, and leaves the operation state (hence `optimal_model`)
unchanged; from the initial state `get_result` still returns `None`. -/
theorem execute_skips_on_unavailable (env : ExecEnv) (args : ExecArgs)
    (st : RootOpState)
    (h : env.modelAvailable = false ∨ env.dataAvailable = false) :
    executeModel env args st =
      Except.ok
        { state := st, warnings := [], selected := none
          downstreamThs := none, downstreamMetric := none } ∧
      getResult initState = none := by
  have hc : (env.modelAvailable && env.dataAvailable) = false := by
    rcases h with h | h <;> simp [h]
  refine ⟨?_, rfl⟩
  unfold executeModel
  rw [hc]
  rfl

/-- C10 witness: with the model fetch yielding nothing, the run is a
no-op on the operation state. -/
theorem execute_skips_on_unavailable_witness :
    executeModel
        { modelAvailable := false, dataAvailable := true, dataIsDataloader := false
          dataloaderConvertible := true, dataIsHuggingface := false
          dataIsManager := true, dataFormatOk := true
          candidates := [{ model := some { id := 9 }, latency := 1, metricDrop := 0 }] }
        { metricDropThs := some 1, metric := MetricArg.str "accuracy",
          dynamicInfoProvided := false }
        initState =
      Except.ok
        { state := initState, warnings := [], selected := none
          downstreamThs := none, downstreamMetric := none } ∧
      getResult initState = none :=
  execute_skips_on_unavailable
    { modelAvailable := false, dataAvailable := true, dataIsDataloader := false
      dataloaderConvertible := true, dataIsHuggingface := false
      dataIsManager := true, dataFormatOk := true
      candidates := [{ model := some { id := 9 }, latency := 1, metricDrop := 0 }] }
    { metricDropThs := some 1, metric := MetricArg.str "accuracy",
      dynamicInfoProvided := false }
    initState (Or.inl rfl)

/-- C4 (counterexample): an unknown metric name does NOT make the run
fail fast. Line 195 uses `QUANTIZATION_METRIC_MAP.get(metric)`, and
`dict.get` returns `None` on a missing key instead of raising: with the
unmapped name "pearson_correlation" the run completes normally
(`Except.ok`, no lookup-miss error) and the effective metric is `None`. -/
theorem execute_unknown_metric_proceeds_cex :
    QUANTIZATION_METRIC_MAP.lookup "pearson_correlation" = none ∧
    executeModel
        { modelAvailable := true, dataAvailable := true, dataIsDataloader := false
          dataloaderConvertible := true, dataIsHuggingface := false
          dataIsManager := true, dataFormatOk := true, candidates := [] }
        { metricDropThs := none, metric := MetricArg.str "pearson_correlation"
          dynamicInfoProvided := true }
        initState =
      Except.ok
        { state := initState
          warnings := [Warning.noOptimizedModel]
          selected := none
          downstreamThs := none
          downstreamMetric := none } :=
  ⟨rfl, by decide⟩

/-- C4 (amended): a string-valued metric is resolved through the fixed
name-to-function mapping with `dict.get` semantics: on every completed
run the effective metric passed downstream is the mapping's entry for
the name, which is `None` for an unknown name — the run proceeds
rather than failing fast. -/
theorem execute_metric_string_resolved (env : ExecEnv) (args : ExecArgs)
    (st : RootOpState) (out : ExecOutcome) (s : String)
    (hm : args.metric = MetricArg.str s)
    (hav : env.modelAvailable = true) (hda : env.dataAvailable = true)
    (hrun : executeModel env args st = Except.ok out) :
    out.downstreamMetric = QUANTIZATION_METRIC_MAP.lookup s := by
  have hr : (resolveThsMetric args.metricDropThs args.metric).2 =
      QUANTIZATION_METRIC_MAP.lookup s := by
    rw [hm]
    unfold resolveThsMetric
    rcases args.metricDropThs with _ | v
    · rfl
    · by_cases hv : v ≤ 0 <;> simp [hv]
  unfold executeModel at hrun
  rw [hav, hda] at hrun
  simp only [Bool.and_self, if_true] at hrun
  split at hrun
  · exact absurd hrun (by simp)
  · split at hrun
    · exact absurd hrun (by simp)
    · split at hrun <;>
        (rw [Except.ok.injEq] at hrun; subst hrun; exact hr)

/-- C4 (amended) witness: the known name "accuracy" resolves to its
mapped function on a completed run. -/
theorem execute_metric_string_resolved_witness :
    (ExecOutcome.mk initState [Warning.noOptimizedModel] none none
        (some MetricFn.computeAccuracyDrop)).downstreamMetric =
      QUANTIZATION_METRIC_MAP.lookup "accuracy" :=
  execute_metric_string_resolved
    { modelAvailable := true, dataAvailable := true, dataIsDataloader := false
      dataloaderConvertible := true, dataIsHuggingface := false
      dataIsManager := true, dataFormatOk := true, candidates := [] }
    { metricDropThs := none, metric := MetricArg.str "accuracy"
      dynamicInfoProvided := true }
    initState
    (ExecOutcome.mk initState [Warning.noOptimizedModel] none none
      (some MetricFn.computeAccuracyDrop))
    "accuracy" rfl rfl rfl (by decide)

/-- C5: a positive drop threshold together with `metric = None`
substitutes the default "numeric_precision" metric: the effective
metric passed downstream is the mapping's numeric-precision entry,
`compute_relative_difference`. -/
theorem execute_default_metric_substituted (env : ExecEnv) (args : ExecArgs)
    (st : RootOpState) (out : ExecOutcome) (v : ℚ)
    (hths : args.metricDropThs = some v) (hv : 0 < v)
    (hm : args.metric = MetricArg.noMetric)
    (hav : env.modelAvailable = true) (hda : env.dataAvailable = true)
    (hrun : executeModel env args st = Except.ok out) :
    out.downstreamMetric = QUANTIZATION_METRIC_MAP.lookup "numeric_precision" ∧
      out.downstreamMetric = some MetricFn.computeRelativeDifference := by
  have hle : ¬ v ≤ 0 := not_le.mpr hv
  have hr : (resolveThsMetric args.metricDropThs args.metric).2 =
      QUANTIZATION_METRIC_MAP.lookup "numeric_precision" := by
    rw [hths, hm]
    unfold resolveThsMetric
    simp [hle]
  have hout : out.downstreamMetric =
      QUANTIZATION_METRIC_MAP.lookup "numeric_precision" := by
    unfold executeModel at hrun
    rw [hav, hda] at hrun
    simp only [Bool.and_self, if_true] at hrun
    split at hrun
    · exact absurd hrun (by simp)
    · split at hrun
      · exact absurd hrun (by simp)
      · split at hrun <;>
          (rw [Except.ok.injEq] at hrun; subst hrun; exact hr)
  exact ⟨hout, by rw [hout]; rfl⟩

/-- C5 witness: with threshold 1 and no metric argument, the
numeric-precision default is the downstream metric. -/
theorem execute_default_metric_substituted_witness :
    (ExecOutcome.mk initState [Warning.noOptimizedModel] none (some 1)
        (some MetricFn.computeRelativeDifference)).downstreamMetric =
      QUANTIZATION_METRIC_MAP.lookup "numeric_precision" ∧
    (ExecOutcome.mk initState [Warning.noOptimizedModel] none (some 1)
        (some MetricFn.computeRelativeDifference)).downstreamMetric =
      some MetricFn.computeRelativeDifference :=
  execute_default_metric_substituted
    { modelAvailable := true, dataAvailable := true, dataIsDataloader := false
      dataloaderConvertible := true, dataIsHuggingface := false
      dataIsManager := true, dataFormatOk := true, candidates := [] }
    { metricDropThs := some 1, metric := MetricArg.noMetric
      dynamicInfoProvided := true }
    initState
    (ExecOutcome.mk initState [Warning.noOptimizedModel] none (some 1)
      (some MetricFn.computeRelativeDifference))
    1 rfl (by norm_num) rfl rfl rfl (by decide)

/-- C6: saving a `PytorchBackendInferenceLearner` into a directory and
loading from the same directory succeeds and reconstructs a learner
whose `run` produces the same inference outputs on the same input
tensors. -/
theorem save_load_roundtrip_preserves_run (l : PytorchBackendInferenceLearner)
    (d : SavedDir) (inputs : List Tensor) :
    (loadLearner (saveLearner l d)).isSome = true ∧
      (loadLearner (saveLearner l d)).map
          (fun l2 => l2.run inputs) = some (l.run inputs) := by
  obtain ⟨m0, dev, np, tf⟩ := l
  cases dev <;> cases inputs <;> exact ⟨rfl, rfl⟩

/-- C9: `run` on a non-empty input tuple always returns a tuple: a
non-tuple model output is wrapped into a one-element tuple, and every
output tensor is moved to the device of the first input tensor. -/
theorem run_wraps_single_and_moves_outputs (l : PytorchBackendInferenceLearner)
    (t0 : Tensor) (rest : List Tensor) :
    (l.run (t0 :: rest)).isSome = true ∧
      ∀ outs, l.run (t0 :: rest) = some outs →
        (∀ o ∈ outs, o.device = t0.device) ∧
          ∀ t, l.model.fn (movedInputs l (t0 :: rest)) = TorchOut.single t →
            outs = [Tensor.to t t0.device] := by
  refine ⟨rfl, ?_⟩
  intro outs houts
  have h : (match l.model.fn (movedInputs l (t0 :: rest)) with
      | TorchOut.single res => [res.to t0.device]
      | TorchOut.tup res => res.map (fun out => out.to t0.device)) = outs := by
    simpa [PytorchBackendInferenceLearner.run] using houts
  constructor
  · intro o ho
    rw [← h] at ho
    rcases hfn : l.model.fn (movedInputs l (t0 :: rest)) with t | ts <;>
      rw [hfn] at ho
    · have : o = t.to t0.device := by simpa using ho
      rw [this]
      rfl
    · simp only [List.mem_map] at ho
      obtain ⟨u, hu, rfl⟩ := ho
      rfl
  · intro t hfn
    rw [← h, hfn]

/-- C9 witness: a model returning a single GPU tensor has its output
wrapped into a one-element tuple and moved to the CPU device of the
first input. -/
theorem run_wraps_single_and_moves_outputs_witness :
    ([{ device := TorchDevice.cpu, val := 7 }] : List Tensor) =
      [Tensor.to { device := TorchDevice.gpu, val := 7 } TorchDevice.cpu] :=
  ((run_wraps_single_and_moves_outputs singleOutputLearner
      { device := TorchDevice.cpu, val := 1 } []).2
    [{ device := TorchDevice.cpu, val := 7 }] rfl).2
    { device := TorchDevice.gpu, val := 7 } rfl

/-- C7 (counterexample): `get_size` does not return a size for every
serialization failure. The fallback clause is `except RuntimeError`, so
a serialization failure of a different class (here
`pickle.PicklingError`, which is not a `RuntimeError` subclass)
propagates out of `get_size` instead of producing a size. -/
theorem get_size_non_runtime_error_propagates_cex :
    pickleTarget nonRuntimeFailLearner =
        Except.error (PyExc.picklingError "unpicklable scripted module") ∧
      get_size nonRuntimeFailLearner =
        Except.error (PyExc.picklingError "unpicklable scripted module") :=
  ⟨rfl, rfl⟩

/-- C7 (amended): if serializing the model to bytes fails with a
`RuntimeError`, `get_size` returns a size computed as the on-disk byte
count of the files `save` writes into a fresh temporary directory; a
size value is returned for every `RuntimeError` serialization failure
(other exception classes propagate). -/
theorem get_size_fallback_on_runtime_error (l : PytorchBackendInferenceLearner)
    (msg : String)
    (h : pickleTarget l = Except.error (PyExc.runtimeError msg)) :
    get_size l = Except.ok (SavedDir.totalSize (saveLearner l emptySavedDir)) := by
  unfold get_size
  rw [h]
  rfl

/-- C7 (amended) witness: a learner whose pickling raises
`RuntimeError` gets its size from the saved files on disk. -/
theorem get_size_fallback_on_runtime_error_witness :
    get_size runtimeFailLearner =
      Except.ok (SavedDir.totalSize (saveLearner runtimeFailLearner emptySavedDir)) :=
  get_size_fallback_on_runtime_error runtimeFailLearner "pickle failure" rfl

end Nebullvm
